import Mathlib

/-! Shallow embedding of the USDA QuickStats acquisition and reconciliation
scripts of this repository (`src/src/data_collection/get_yield_by_county.py`
and `src/src/data_collection/get_production_by_county.py`).

Strings stay `String`, pandas nulls are `Option`, and the numeric values that
`pd.to_numeric` produces are modelled as `ℚ` (the scripts do no arithmetic on
the values, only parsing and first-non-null selection).  Network and
file-system effects are modelled by an explicit oracle environment (`NetEnv`)
together with an event trace (`Ev`). -/

/-- List version of `startsWith`: does `cs` begin with `pat`? -/
def startsWithL : List Char → List Char → Bool
  | [], _ => true
  | _ :: _, [] => false
  | a :: as, b :: bs => a == b && startsWithL as bs

/-- Does `cs` contain `pat` as a contiguous run? -/
def containsPat (pat : List Char) : List Char → Bool
  | [] => pat.isEmpty
  | c :: rest => startsWithL pat (c :: rest) || containsPat pat rest

/-- Boolean substring test: `strContains s pat` is Python's `pat in s`. -/
def strContains (s pat : String) : Bool :=
  containsPat pat.toList s.toList

/-- Fuel-indexed worker for `replacePat`; the fuel starts at the subject's
length, which suffices because every step consumes at least one character. -/
def replacePatFuel (pat repl : List Char) : Nat → List Char → List Char
  | 0, cs => cs
  | _ + 1, [] => []
  | fuel + 1, c :: cs =>
    if startsWithL pat (c :: cs) && !pat.isEmpty then
      repl ++ replacePatFuel pat repl fuel ((c :: cs).drop pat.length)
    else c :: replacePatFuel pat repl fuel cs

/-- Replacement of every occurrence of a (non-empty) pattern, left to right:
Python's `str.replace(pat, repl)` / Lean's `String.replace`, made
kernel-friendly. -/
def replacePat (pat repl cs : List Char) : List Char :=
  replacePatFuel pat repl cs.length cs

/-- String wrapper for `replacePat`. -/
def strReplace (s pat repl : String) : String :=
  ⟨replacePat pat.toList repl.toList s.toList⟩

/-- Characters Python's `str.strip()` removes at either end. -/
def isSpaceChar (c : Char) : Bool :=
  c == ' ' || c == '\t' || c == '\n' || c == '\r'

/-- Whitespace stripped from both ends (`str.strip()` / `String.trim`). -/
def trimString (s : String) : String :=
  ⟨((s.toList.dropWhile isSpaceChar).reverse.dropWhile isSpaceChar).reverse⟩

/-- ASCII uppercasing (`str.upper()` / `String.toUpper`). -/
def upperString (s : String) : String :=
  ⟨s.toList.map Char.toUpper⟩

/-- Split worker accumulating the current piece in reverse. -/
def splitOnCharAux (sep : Char) : List Char → List Char → List (List Char)
  | [], acc => [acc.reverse]
  | c :: cs, acc =>
    if c == sep then acc.reverse :: splitOnCharAux sep cs []
    else splitOnCharAux sep cs (c :: acc)

/-- Split on a single-character separator, keeping empty pieces, as
Python's `str.split(sep)` does. -/
def splitOnChar (sep : Char) (cs : List Char) : List (List Char) :=
  splitOnCharAux sep cs []

/-- Python's `str` applied to a pandas cell: a null prints as `"None"` (a
missing value read from a CSV prints as `"nan"`; both spellings contain none
of the keywords `YIELD`, `ACRES`, `PLANTED` that the scripts search for, so
one stand-in string is adequate). -/
def pyStr : Option String → String
  | none => "None"
  | some s => s

/-- Digit accumulator for the decimal parser; fails on any non-digit. -/
def parseDigitsAux : List Char → Nat → Option Nat
  | [], acc => some acc
  | c :: cs, acc =>
    if c.isDigit then parseDigitsAux cs (acc * 10 + (c.toNat - 48)) else none

/-- All-digit string to `Nat`; the empty list is rejected. -/
def parseDigits (cs : List Char) : Option Nat :=
  if cs.isEmpty then none else parseDigitsAux cs 0

/-- Unsigned decimal literal (`"185"`, `"185.3"`, `"5."`, `".5"`) to `ℚ`.
Models the fragment of `pd.to_numeric(…, errors='coerce')` the scripts rely
on; exponent notation is not modelled. -/
def parseUnsignedDecimal (cs : List Char) : Option (Nat × Nat) :=
  match splitOnChar '.' cs with
  | [ip] => (parseDigits ip).map (fun n => (n, 1))
  | [ip, fp] =>
    if ip.isEmpty && fp.isEmpty then none
    else do
      let ipn ← if ip.isEmpty then some 0 else parseDigits ip
      let fpn ← if fp.isEmpty then some 0 else parseDigits fp
      pure (ipn * 10 ^ fp.length + fpn, 10 ^ fp.length)
  | _ => none

/-- Signed decimal with surrounding whitespace stripped, as `pd.to_numeric`
accepts; `none` models coercion to `NaN`.  The numerator/denominator pair
from `parseUnsignedDecimal` is packaged as a rational with `mkRat`. -/
def parseNumeric (s : String) : Option ℚ :=
  match (trimString s).toList with
  | '-' :: rest => (parseUnsignedDecimal rest).map (fun p => mkRat (-(p.1 : Int)) p.2)
  | t => (parseUnsignedDecimal t).map (fun p => mkRat (p.1 : Int) p.2)

/-- The `Year` column after `pd.to_numeric(…).astype('Int64')`: an integer
literal or null.  (A numeric but fractional year would make the real
`astype('Int64')` raise; that corner is not modelled.) -/
def parseYearInt (s : String) : Option Int :=
  match (trimString s).toList with
  | '-' :: rest => (parseDigits rest).map (fun n => -(n : Int))
  | t => (parseDigits t).map (fun n => (n : Int))

/-- First element of `s.split(',')`, i.e. Python's `s.split(',')[0]`. -/
def firstCommaField (s : String) : String :=
  match splitOnChar ',' s.toList with
  | [] => s
  | piece :: _ => ⟨piece⟩

/-- The two target metrics of `merge_raw_files`. -/
inductive Metric
  | yieldM
  | acresM
deriving DecidableEq

/-- One raw CSV row after the column-normalisation step of
`merge_raw_files` (any of the expected columns absent from the export has
been added holding null).  Only the columns the merge logic reads are kept;
`CV (%)` and `Unit` are carried through the real code unread. -/
structure RawRow where
  year : Option String
  state : Option String
  stateAnsi : Option String
  county : Option String
  countyAnsi : Option String
  value : Option String
  shortDesc : Option String
  commodityDesc : Option String
deriving DecidableEq

/-- One successfully read export: its filename, whether the file carried a
`short_desc` column at all (a present column may still be all-null), and its
rows. -/
structure LoadedFile where
  name : String
  hasShortDescCol : Bool
  rows : List RawRow
deriving DecidableEq

/-- An input path of `merge_raw_files`: `pd.read_csv` either fails (the file
is skipped with a warning) or yields a table. -/
inductive RawFile
  | unreadable (name : String)
  | readable (f : LoadedFile)
deriving DecidableEq

/-- Readability test on an input file. -/
def isUnreadable : RawFile → Bool
  | .unreadable _ => true
  | .readable _ => false

/-- The result of `pd.read_csv` inside the merge loop. -/
def loadFile : RawFile → Option LoadedFile
  | .unreadable _ => none
  | .readable f => some f

/-- File-level metric detection of `merge_raw_files`: first the `short_desc`
of the file's first row (when the column exists), then keywords in the
filename.  (When the column exists but the file has zero data rows the real
code raises an uncaught `IndexError`; that corner is not modelled.) -/
def detectFileMetric (f : LoadedFile) : Option Metric :=
  let fromDesc : Option Metric :=
    match (if f.hasShortDescCol then f.rows.head? else none) with
    | some r =>
      let sd := upperString (pyStr r.shortDesc)
      if strContains sd "YIELD" then some Metric.yieldM
      else if strContains sd "ACRES" && strContains sd "PLANTED" then some Metric.acresM
      else none
    | none => none
  match fromDesc with
  | some m => some m
  | none =>
    let fname := upperString f.name
    if strContains fname "__YIELD__" || strContains fname "YIELD" then some Metric.yieldM
    else if strContains fname "ACRES" || strContains fname "ACRES_PLANTED"
        || strContains fname "PLANTED" then some Metric.acresM
    else none

/-- Row-level commodity detection (`detect_commodity` in the source):
`commodity_desc` when non-null, else the text before the first comma of
`short_desc` when `short_desc` is a string containing a comma. -/
def detect_commodity (r : RawRow) : Option String :=
  match r.commodityDesc with
  | some c => some c
  | none =>
    match r.shortDesc with
    | some s => if strContains s "," then some (firstCommaField s) else none
    | none => none

/-- The fill step for still-null crops: `short_desc.split(',')[0]` when a
comma is present, else `short_desc` itself (possibly still null). -/
def fillFromShortDesc : Option String → Option String
  | some s => if strContains s "," then some (firstCommaField s) else some s
  | none => none

/-- The `Crop` column a row ends up with, after `detect_commodity`, the
fill-from-`short_desc` pass, and `.astype(str).str.strip()` (applied by the
code after null crops are dropped; mapping `trim` over the non-null values
is the same filtration). -/
def cropOf (r : RawRow) : Option String :=
  (match detect_commodity r with
   | some c => some c
   | none => fillFromShortDesc r.shortDesc).map trimString

/-- The `ValueNumeric` column: `Value` with thousands separators removed and
coerced to numeric, nulls and unparsable text becoming null. -/
def valueNumeric (r : RawRow) : Option ℚ :=
  r.value.bind (fun v => parseNumeric (strReplace v "," ""))

/-- One row of the concatenated frame `big`, carrying its file's
`DetectedMetric` tag. -/
structure Tagged where
  detected : Option Metric
  row : RawRow
deriving DecidableEq

/-- Concatenation of the loaded files in order (`pd.concat`), each row
tagged with its file's `DetectedMetric`. -/
def taggedRows (loaded : List LoadedFile) : List Tagged :=
  (loaded.map (fun f => f.rows.map (fun r => Tagged.mk (detectFileMetric f) r))).flatten

/-- The `mask_yield` predicate: file tagged `yield`, or the row's own
`short_desc` (uppercased, nulls printed) contains `YIELD`. -/
def maskYield (t : Tagged) : Bool :=
  decide (t.detected = some Metric.yieldM)
    || strContains (upperString (pyStr t.row.shortDesc)) "YIELD"

/-- The `mask_acres` predicate: file tagged `acres_planted`, or the row's
own `short_desc` contains both `ACRES` and `PLANTED`. -/
def maskAcres (t : Tagged) : Bool :=
  decide (t.detected = some Metric.acresM)
    || (strContains (upperString (pyStr t.row.shortDesc)) "ACRES"
        && strContains (upperString (pyStr t.row.shortDesc)) "PLANTED")

/-- The `Yield_BuPerAcre` cell of a row: `ValueNumeric` where `mask_yield`
holds, null elsewhere. -/
def yieldProj (t : Tagged) : Option ℚ :=
  if maskYield t then valueNumeric t.row else none

/-- The `Acres_Planted` cell of a row: `ValueNumeric` where `mask_acres`
holds, null elsewhere. -/
def acresProj (t : Tagged) : Option ℚ :=
  if maskAcres t then valueNumeric t.row else none

/-- The grouping key tuple `(State, State ANSI, County, County ANSI, Year,
Crop)`. -/
structure Key where
  state : String
  stateAnsi : String
  county : String
  countyAnsi : String
  year : Int
  crop : String
deriving DecidableEq

/-- The key a row is grouped under, or `none` when the row is dropped:
rows whose crop is null are filtered out explicitly, and `groupby` (with its
default `dropna=True`) silently excludes rows holding null in any key
column. -/
def keyOf (t : Tagged) : Option Key :=
  match cropOf t.row, t.row.state, t.row.stateAnsi, t.row.county,
      t.row.countyAnsi, parseYearInt (pyStr t.row.year) with
  | some c, some s, some sa, some co, some ca, some y =>
      some { state := s, stateAnsi := sa, county := co, countyAnsi := ca,
             year := y, crop := c }
  | _, _, _, _, _, _ => none

/-- One output row of the merged dataset. -/
structure MergedRow where
  key : Key
  yieldBuPerAcre : Option ℚ
  acresPlanted : Option ℚ
  sourceRowsCount : Nat
deriving DecidableEq

/-- First non-null entry of a column slice, i.e. the aggregation lambda
`pd.to_numeric(x, errors='coerce').dropna().iloc[0]` guarded by
`x.dropna().shape[0] > 0` (the guard and the selection agree because the
metric cells are already numeric-or-null). -/
def firstSome {α : Type} : List (Option α) → Option α
  | [] => none
  | o :: rest =>
    match o with
    | some x => some x
    | none => firstSome rest

/-- The grouped aggregation of `merge_raw_files`: one output row per
distinct key, first non-null value per metric column over the group's rows
in concatenation order, and the group size as `SourceRowsCount`.  (The real
`groupby(sort=True)` emits the groups sorted by key; only the row order of
the saved CSV differs, which no claim concerns, so first-appearance key
order is used here.) -/
def mergeLoaded (loaded : List LoadedFile) : List MergedRow :=
  let ts := taggedRows loaded
  let keys := (ts.filterMap keyOf).dedup
  keys.map (fun k =>
    let members := ts.filter (fun t => decide (keyOf t = some k))
    { key := k
      yieldBuPerAcre := firstSome (members.map yieldProj)
      acresPlanted := firstSome (members.map acresProj)
      sourceRowsCount := members.length })

/-- The merge entry point `merge_raw_files`: `none` models the two early
returns (`"No files to merge."` and `"No readable CSVs to merge."`) on which
no output file is written; `some` models the merged dataset that is written
to the output CSV. -/
def merge_raw_files (files : List RawFile) : Option (List MergedRow) :=
  if files.isEmpty then none
  else
    let loaded := files.filterMap loadFile
    if loaded.isEmpty then none
    else some (mergeLoaded loaded)

/-- Rows of the concatenated frame for a given list of input paths. -/
def flatRows (files : List RawFile) : List Tagged :=
  taggedRows (files.filterMap loadFile)


/-- Observable effects of the fetch pipeline: a resolution POST to the UUID
encode endpoint (tagged with the `short_desc` being tried), a CSV download
GET (tagged with the uuid), a completed write of the response body to a
path, and a `time.sleep` with its duration in seconds. -/
inductive Ev
  | uuidPost (shortDesc : String)
  | csvGet (uuid : String)
  | fileWrite (path : String)
  | sleepEv (seconds : ℚ)
deriving DecidableEq

/-- Outcome of one resolution POST attempt: a non-empty uuid string (after
stripping whitespace and quotes), an empty body (the code falls through to
the next attempt without sleeping), or a network-level exception (the code
sleeps, then retries). -/
inductive UuidOutcome
  | ok (uuid : String)
  | empty
  | err
deriving DecidableEq

/-- Oracle environment for the network and the file system: the outcome of
the `attempt`-th resolution POST for a given `short_desc`, whether a path
exists on disk, and whether the `attempt`-th download GET for a uuid
succeeds. -/
structure NetEnv where
  uuidResp : String → Nat → UuidOutcome
  fileExists : String → Bool
  dlResp : String → Nat → Bool

/-- `MAX_TRIES` of `get_yield_by_county.py` (`RETRIES` of
`get_production_by_county.py` has the same value). -/
def MAX_TRIES : Nat := 3

/-- `RETRY_DELAY` of `get_yield_by_county.py`, in seconds. -/
def RETRY_DELAY : ℚ := 2

/-- `DELAY_BETWEEN_REQUESTS` of `get_yield_by_county.py` (and `DELAY` of
`get_production_by_county.py` is also one second). -/
def DELAY_BETWEEN_REQUESTS : ℚ := 1

/-- Retry loop of `try_post_uuid`/`USDAQuickStats.get_uuid` over a list of
attempt indices: return the first non-empty uuid, sleep `retrySleep` after
an exception, give up with `none` when the attempts run out. -/
def tryPostAux (env : NetEnv) (sd : String) (retrySleep : ℚ) :
    List Nat → Option String × List Ev
  | [] => (none, [])
  | a :: rest =>
    match env.uuidResp sd a with
    | .ok u => (some u, [Ev.uuidPost sd])
    | .empty =>
      let r := tryPostAux env sd retrySleep rest
      (r.1, Ev.uuidPost sd :: r.2)
    | .err =>
      let r := tryPostAux env sd retrySleep rest
      (r.1, Ev.uuidPost sd :: Ev.sleepEv retrySleep :: r.2)

/-- `try_post_uuid` of `get_yield_by_county.py`: up to `MAX_TRIES` attempts,
sleeping `RETRY_DELAY` after a failed one. -/
def try_post_uuid (env : NetEnv) (sd : String) : Option String × List Ev :=
  tryPostAux env sd RETRY_DELAY [1, 2, 3]

/-- `USDAQuickStats.get_uuid` of `get_production_by_county.py`: same loop
with `RETRIES` attempts and a one-second sleep after a failure.  (The
breadcrumb form content is abstracted into the `short_desc` tag; its exact
field order is modelled separately by `get_uuid_breadcrumb_order`.) -/
def get_uuid (env : NetEnv) (sd : String) : Option String × List Ev :=
  tryPostAux env sd 1 [1, 2, 3]

/-- Retry loop of the two download functions over a list of attempt
indices: on a successful response the body is written to `outPath` and the
loop returns `true`; on an exception the code sleeps `retrySleep` and
retries; exhaustion returns `false` without writing. -/
def downloadAux (env : NetEnv) (uuid outPath : String) (retrySleep : ℚ) :
    List Nat → Bool × List Ev
  | [] => (false, [])
  | a :: rest =>
    if env.dlResp uuid a then (true, [Ev.csvGet uuid, Ev.fileWrite outPath])
    else
      let r := downloadAux env uuid outPath retrySleep rest
      (r.1, Ev.csvGet uuid :: Ev.sleepEv retrySleep :: r.2)

/-- `download_csv_for_uuid` of `get_yield_by_county.py`: `MAX_TRIES`
attempts, `RETRY_DELAY` seconds between them. -/
def download_csv_for_uuid (env : NetEnv) (uuid outPath : String) : Bool × List Ev :=
  downloadAux env uuid outPath RETRY_DELAY [1, 2, 3]

/-- `USDAQuickStats.download_csv` of `get_production_by_county.py`:
`RETRIES` attempts, one second between them. -/
def download_csv (env : NetEnv) (uuid outPath : String) : Bool × List Ev :=
  downloadAux env uuid outPath 1 [1, 2, 3]

/-- The `SHORT_DESC_TEMPLATES` dict of `get_yield_by_county.py`; lookup of
any key other than the two present ones models a `KeyError`. -/
def SHORT_DESC_TEMPLATES (metricKey : String) : Option (List String) :=
  if metricKey = "yield" then
    some ["{crop}, GRAIN - YIELD, MEASURED IN BU / ACRE",
          "{crop} - YIELD, MEASURED IN BU / ACRE",
          "{crop}, YIELD, MEASURED IN BU / ACRE",
          "{crop}, YIELD, MEASURED IN BU/ACRE",
          "{crop} - YIELD",
          "YIELD"]
  else if metricKey = "acres_planted" then
    some ["ACRES PLANTED",
          "{crop} - ACRES PLANTED",
          "{crop}, ACRES PLANTED",
          "{crop} - ACRES PLANTED, MEASURED IN ACRES",
          "{crop}, ACRES PLANTED, MEASURED IN ACRES"]
  else none

/-- The `SHORT_DESC_PATTERNS` dict of `get_production_by_county.py`. -/
def SHORT_DESC_PATTERNS (metric : String) : Option (List String) :=
  if metric = "yield" then
    some ["{crop}, GRAIN - YIELD, MEASURED IN BU / ACRE",
          "{crop} - YIELD, MEASURED IN BU / ACRE",
          "{crop}, YIELD, MEASURED IN BU / ACRE",
          "{crop} - YIELD",
          "YIELD"]
  else if metric = "acres_planted" then
    some ["{crop} - ACRES PLANTED",
          "{crop}, ACRES PLANTED",
          "ACRES PLANTED"]
  else none

/-- Python's `template.format(crop=crop)` for these templates: substitute
the crop name for the placeholder. -/
def formatTemplate (template crop : String) : String :=
  strReplace template "{crop}" crop

/-- `sanitize_crop_name` of `get_yield_by_county.py`. -/
def sanitize_crop_name (crop : String) : String :=
  strReplace (strReplace (upperString (trimString crop)) " " "_") "," ""

/-- The uncaught exception the model records when a dict lookup misses. -/
inductive FetchErr
  | keyError
deriving DecidableEq

/-- The metric half of the output filename in `fetch_for_crop_metric` and
`fetch_one`: the string `"yield"` for the key `"yield"`, `"acres_planted"`
for every other key. -/
def metricNameOf (metricKey : String) : String :=
  if metricKey = "yield" then "yield" else "acres_planted"

/-- The deterministic cache filename of `fetch_for_crop_metric`
(`{crop_tag}__{metric_name}__{year}__{uuid}.csv` under `RAW_DIR`); note it
embeds the resolved uuid. -/
def yieldOutPath (crop metricKey : String) (year : Nat) (uuid : String) : String :=
  sanitize_crop_name crop ++ "__" ++ metricNameOf metricKey ++ "__"
    ++ toString year ++ "__" ++ uuid ++ ".csv"

/-- The deterministic cache filename of `fetch_one`
(`{crop}_{metric_tag}_{year}.csv` with spaces replaced, under `RAW_DIR`);
it does not depend on any uuid. -/
def fetchOnePath (crop metric : String) (year : Nat) : String :=
  strReplace (crop ++ "_" ++ metricNameOf metric ++ "_" ++ toString year ++ ".csv") " " "_"

/-- Template cascade of `fetch_for_crop_metric`: resolve, sleep, and on a
uuid either return the already-cached path, or download (sleeping once
more) and return on success; otherwise move to the next template. -/
def fetchYieldLoop (env : NetEnv) (crop metricKey : String) (year : Nat) :
    List String → Option String × List Ev
  | [] => (none, [])
  | template :: rest =>
    let sd := formatTemplate template crop
    let u := try_post_uuid env sd
    let evs1 := u.2 ++ [Ev.sleepEv DELAY_BETWEEN_REQUESTS]
    match u.1 with
    | none =>
      let r := fetchYieldLoop env crop metricKey year rest
      (r.1, evs1 ++ r.2)
    | some uuid =>
      let outPath := yieldOutPath crop metricKey year uuid
      if env.fileExists outPath then (some outPath, evs1)
      else
        let d := download_csv_for_uuid env uuid outPath
        let evs2 := d.2 ++ [Ev.sleepEv DELAY_BETWEEN_REQUESTS]
        if d.1 then (some outPath, evs1 ++ evs2)
        else
          let r := fetchYieldLoop env crop metricKey year rest
          (r.1, evs1 ++ evs2 ++ r.2)

/-- `fetch_for_crop_metric` of `get_yield_by_county.py`.  The result is
`Except` because `SHORT_DESC_TEMPLATES[metric_key]` raises an uncaught
`KeyError` for unknown metric keys; otherwise `some path` on success and
`none` after the cascade is exhausted. -/
def fetch_for_crop_metric (env : NetEnv) (crop metricKey : String) (year : Nat) :
    Except FetchErr (Option String) × List Ev :=
  match SHORT_DESC_TEMPLATES metricKey with
  | none => (Except.error FetchErr.keyError, [])
  | some templates =>
    let r := fetchYieldLoop env crop metricKey year templates
    (Except.ok r.1, r.2)

/-- Pattern cascade of `fetch_one`: resolve (with the production script's
`get_uuid`), sleep `DELAY`, download into the fixed output file on a uuid;
no sleep follows the download. -/
def fetchOneLoop (env : NetEnv) (crop outFile : String) :
    List String → Option String × List Ev
  | [] => (none, [])
  | pattern :: rest =>
    let sd := formatTemplate pattern crop
    let u := get_uuid env sd
    let evs1 := u.2 ++ [Ev.sleepEv DELAY_BETWEEN_REQUESTS]
    match u.1 with
    | none =>
      let r := fetchOneLoop env crop outFile rest
      (r.1, evs1 ++ r.2)
    | some uuid =>
      let d := download_csv env uuid outFile
      if d.1 then (some outFile, evs1 ++ d.2)
      else
        let r := fetchOneLoop env crop outFile rest
        (r.1, evs1 ++ d.2 ++ r.2)

/-- `fetch_one` of `get_production_by_county.py`: the existence check on the
(uuid-free) cache path comes before the pattern loop and before the dict
lookup, so a cache hit returns at once with no network traffic. -/
def fetch_one (env : NetEnv) (crop metric : String) (year : Nat) :
    Except FetchErr (Option String) × List Ev :=
  let outName := fetchOnePath crop metric year
  if env.fileExists outName then (Except.ok (some outName), [])
  else
    match SHORT_DESC_PATTERNS metric with
    | none => (Except.error FetchErr.keyError, [])
    | some patterns =>
      let r := fetchOneLoop env crop outName patterns
      (Except.ok r.1, r.2)

/-- The canonical breadcrumb field sequence of `guess_breadcrumb_order` in
`get_yield_by_county.py`. -/
def YIELD_BREADCRUMB_KEYS : List String :=
  ["source_desc", "sector_desc", "group_desc", "commodity_desc",
   "short_desc", "agg_level_desc", "year"]

/-- The canonical breadcrumb field sequence hard-coded in
`USDAQuickStats.get_uuid` of `get_production_by_county.py`. -/
def PROD_BREADCRUMB_KEYS : List String :=
  ["source_desc", "sector_desc", "group_desc", "commodity_desc",
   "statisticcat_desc", "short_desc", "agg_level_desc", "year"]

/-- `guess_breadcrumb_order` of `get_yield_by_county.py`: walk the canonical
sequence, appending each key present among the parameter keys. -/
def guess_breadcrumb_order (paramsKeys : List String) : List String :=
  YIELD_BREADCRUMB_KEYS.foldl
    (fun acc key => if key ∈ paramsKeys then acc ++ [key] else acc) []

/-- The breadcrumb-order loop at the top of `USDAQuickStats.get_uuid`. -/
def get_uuid_breadcrumb_order (paramsKeys : List String) : List String :=
  PROD_BREADCRUMB_KEYS.foldl
    (fun acc key => if key ∈ paramsKeys then acc ++ [key] else acc) []

/-- Modelled from the spec: the breadcrumb list the spec promises, namely
the fixed canonical field sequence restricted to the keys actually present,
in canonical order. -/
def canonicalRestriction (canon paramsKeys : List String) : List String :=
  canon.filter (fun k => decide (k ∈ paramsKeys))

/-- Row A of the spec's two-file merge scenario, as exported: the `State
ANSI` and `County ANSI` columns are absent, so normalisation fills them with
null; the crop is carried in `commodity_desc`. -/
def scenarioRowA : RawRow :=
  { year := some "2020", state := some "IA", stateAnsi := none,
    county := some "Story", countyAnsi := none, value := some "185.3",
    shortDesc := some "CORN, GRAIN - YIELD, MEASURED IN BU / ACRE",
    commodityDesc := some "CORN" }

/-- Row B of the spec's two-file merge scenario. -/
def scenarioRowB : RawRow :=
  { year := some "2020", state := some "IA", stateAnsi := none,
    county := some "Story", countyAnsi := none, value := some "1,200",
    shortDesc := some "CORN - ACRES PLANTED",
    commodityDesc := some "CORN" }

/-- The raw file holding scenario row A alone. -/
def scenarioFileA : RawFile :=
  .readable { name := "CORN__yield__2020__u1.csv", hasShortDescCol := true,
              rows := [scenarioRowA] }

/-- The raw file holding scenario row B alone. -/
def scenarioFileB : RawFile :=
  .readable { name := "CORN__acres_planted__2020__u2.csv", hasShortDescCol := true,
              rows := [scenarioRowB] }

/-- Scenario row A with the two ANSI code columns actually present. -/
def scenarioRowA2 : RawRow :=
  { scenarioRowA with stateAnsi := some "19", countyAnsi := some "169" }

/-- Scenario row B with the two ANSI code columns actually present. -/
def scenarioRowB2 : RawRow :=
  { scenarioRowB with stateAnsi := some "19", countyAnsi := some "169" }

/-- The raw file holding the completed scenario row A. -/
def scenarioFileA2 : RawFile :=
  .readable { name := "CORN__yield__2020__u1.csv", hasShortDescCol := true,
              rows := [scenarioRowA2] }

/-- The raw file holding the completed scenario row B. -/
def scenarioFileB2 : RawFile :=
  .readable { name := "CORN__acres_planted__2020__u2.csv", hasShortDescCol := true,
              rows := [scenarioRowB2] }


/-- Environment in which every resolution attempt succeeds with uuid `u0`,
no file exists, and every download succeeds. -/
def envAllOk : NetEnv :=
  { uuidResp := fun _ _ => UuidOutcome.ok "u0",
    fileExists := fun _ => false,
    dlResp := fun _ _ => true }

/-- Environment holding a cached copy of the file that
`fetch_for_crop_metric` derives for crop CORN, metric yield, year 2020 and
the uuid `u0` its resolver deterministically returns. -/
def cacheEnvYield : NetEnv :=
  { uuidResp := fun _ _ => UuidOutcome.ok "u0",
    fileExists := fun p => p == "CORN__yield__2020__u0.csv",
    dlResp := fun _ _ => false }

/-- Environment holding a cached copy of `fetch_one`'s deterministic
(uuid-free) output file for crop CORN, metric yield, year 2020. -/
def cacheEnvProd : NetEnv :=
  { uuidResp := fun _ _ => UuidOutcome.err,
    fileExists := fun p => p == "CORN_yield_2020.csv",
    dlResp := fun _ _ => false }

/-- Boolean recogniser for download request events. -/
def isCsvGet : Ev → Bool
  | .csvGet _ => true
  | _ => false

/-- A keyable row (crop determinable) whose ANSI code columns were absent
from its export and therefore null-filled. -/
def c4Row : RawRow :=
  { year := some "2021", state := some "IA", stateAnsi := none,
    county := some "Polk", countyAnsi := none, value := some "12",
    shortDesc := some "CORN - YIELD", commodityDesc := some "CORN" }

/-- The raw file holding `c4Row` alone. -/
def c4File : RawFile :=
  .readable { name := "c4.csv", hasShortDescCol := true, rows := [c4Row] }

/-- First row of the mixed file: a yield row, which also fixes the
file-level `DetectedMetric` to yield. -/
def c6Row1 : RawRow :=
  { year := some "2020", state := some "IA", stateAnsi := some "19",
    county := some "Polk", countyAnsi := some "153", value := some "10",
    shortDesc := some "CORN - YIELD", commodityDesc := some "CORN" }

/-- Second row of the mixed file: its own `short_desc` says acres planted,
while the file-level tag says yield. -/
def c6Row2 : RawRow :=
  { year := some "2020", state := some "IA", stateAnsi := some "19",
    county := some "Story", countyAnsi := some "169", value := some "20",
    shortDesc := some "CORN - ACRES PLANTED", commodityDesc := some "CORN" }

/-- The mixed-classification export. -/
def c6Loaded : LoadedFile :=
  { name := "c6.csv", hasShortDescCol := true, rows := [c6Row1, c6Row2] }

/-- The mixed-classification export as a merge input. -/
def c6File : RawFile := .readable c6Loaded

/-- The key of the completed two-file scenario. -/
def scenarioKey : Key :=
  { state := "IA", stateAnsi := "19", county := "Story",
    countyAnsi := "169", year := 2020, crop := "CORN" }

/-- The merged row the completed two-file scenario produces. -/
def scenarioMergedRow : MergedRow :=
  { key := scenarioKey, yieldBuPerAcre := some (mkRat 1853 10),
    acresPlanted := some 1200, sourceRowsCount := 2 }

theorem filter_filter_and {α : Type} (p q : α → Bool) (l : List α) :
    (l.filter p).filter q = l.filter (fun a => p a && q a) := by
  induction l with
  | nil => rfl
  | cons h t ih =>
    by_cases hp : p h <;> by_cases hq : q h <;>
      simp [List.filter_cons, hp, hq, ih]

theorem firstSome_map_ite {α β : Type} (p : α → Bool) (v : α → Option β)
    (l : List α) :
    firstSome (l.map (fun t => if p t then v t else none)) =
      ((l.filter p).filterMap v).head? := by
  induction l with
  | nil => rfl
  | cons h t ih =>
    by_cases hp : p h
    · cases hv : v h <;>
        simp [firstSome, List.filter_cons, List.filterMap_cons, hp, hv, ih]
    · simp [firstSome, List.filter_cons, hp, ih]

theorem tryPostAux_uuidPost (env : NetEnv) (sd : String) (d : ℚ) :
    ∀ (attempts : List Nat) (s : String),
      Ev.uuidPost s ∈ (tryPostAux env sd d attempts).2 → s = sd := by
  intro attempts
  induction attempts with
  | nil => intro s h; simp [tryPostAux] at h
  | cons a rest ih =>
    intro s h
    cases henv : env.uuidResp sd a <;> simp [tryPostAux, henv] at h
    · exact h
    · rcases h with h | h
      · exact h
      · exact ih s h
    · rcases h with h | h
      · exact h
      · exact ih s h

theorem downloadAux_no_uuidPost (env : NetEnv) (uuid outPath : String) (d : ℚ) :
    ∀ (attempts : List Nat) (s : String),
      Ev.uuidPost s ∉ (downloadAux env uuid outPath d attempts).2 := by
  intro attempts
  induction attempts with
  | nil => intro s h; simp [downloadAux] at h
  | cons a rest ih =>
    intro s h
    by_cases hd : env.dlResp uuid a <;> simp [downloadAux, hd] at h
    exact ih s h

theorem foldl_breadcrumb (paramsKeys : List String) :
    ∀ (canon acc : List String),
      canon.foldl (fun acc key => if key ∈ paramsKeys then acc ++ [key] else acc) acc
        = acc ++ canon.filter (fun k => decide (k ∈ paramsKeys)) := by
  intro canon
  induction canon with
  | nil => intro acc; simp
  | cons h t ih =>
    intro acc
    by_cases hp : h ∈ paramsKeys <;>
      simp [List.foldl_cons, List.filter_cons, hp, ih]

/-- C7: with an empty list of retrieved exports, and likewise when every
supplied file is unreadable, `merge_raw_files` returns the explicit
nothing-to-merge signal (`None`) and never reaches the step that writes the
output file. -/
theorem merge_nothing_to_merge :
    merge_raw_files [] = none ∧
    ∀ files : List RawFile, (∀ f ∈ files, isUnreadable f = true) →
      merge_raw_files files = none := by
  refine ⟨rfl, ?_⟩
  intro files h
  have hl : files.filterMap loadFile = [] := by
    rw [List.filterMap_eq_nil_iff]
    intro f hf
    have hu := h f hf
    cases f with
    | unreadable n => rfl
    | readable g => simp [isUnreadable] at hu
  by_cases hfe : files.isEmpty <;> simp [merge_raw_files, hfe, hl]

/-- Witness for `merge_nothing_to_merge` at a concrete one-element input. -/
theorem merge_nothing_to_merge_witness :
    merge_raw_files [RawFile.unreadable "a.csv"] = none :=
  merge_nothing_to_merge.2 [RawFile.unreadable "a.csv"] (by decide)

/-- C9: both scripts' breadcrumb lists equal the fixed canonical field
sequence restricted to the parameter keys actually present, preserving
canonical order; the result is invariant under permutation of the assembled
parameter keys, and absent fields are simply omitted by the restriction. -/
theorem breadcrumb_canonical_order :
    ∀ paramsKeys paramsKeys' : List String,
      guess_breadcrumb_order paramsKeys
          = canonicalRestriction YIELD_BREADCRUMB_KEYS paramsKeys
        ∧ get_uuid_breadcrumb_order paramsKeys
          = canonicalRestriction PROD_BREADCRUMB_KEYS paramsKeys
        ∧ (paramsKeys.Perm paramsKeys' →
            guess_breadcrumb_order paramsKeys = guess_breadcrumb_order paramsKeys'
            ∧ get_uuid_breadcrumb_order paramsKeys
              = get_uuid_breadcrumb_order paramsKeys') := by
  have hfilter : ∀ (canon ks ks' : List String), ks.Perm ks' →
      canon.filter (fun k => decide (k ∈ ks))
        = canon.filter (fun k => decide (k ∈ ks')) := by
    intro canon ks ks' hperm
    apply List.filter_congr
    intro k _
    exact decide_eq_decide.mpr hperm.mem_iff
  intro ks ks'
  refine ⟨?_, ?_, ?_⟩
  · exact foldl_breadcrumb ks YIELD_BREADCRUMB_KEYS []
  · exact foldl_breadcrumb ks PROD_BREADCRUMB_KEYS []
  · intro hperm
    constructor
    · unfold guess_breadcrumb_order
      rw [foldl_breadcrumb ks YIELD_BREADCRUMB_KEYS [],
        foldl_breadcrumb ks' YIELD_BREADCRUMB_KEYS [],
        hfilter YIELD_BREADCRUMB_KEYS ks ks' hperm]
    · unfold get_uuid_breadcrumb_order
      rw [foldl_breadcrumb ks PROD_BREADCRUMB_KEYS [],
        foldl_breadcrumb ks' PROD_BREADCRUMB_KEYS [],
        hfilter PROD_BREADCRUMB_KEYS ks ks' hperm]

/-- Witness for `breadcrumb_canonical_order`: the yield script's parameter
keys in dict-assembly order against a reordering of them. -/
theorem breadcrumb_canonical_order_witness :
    guess_breadcrumb_order
        ["source_desc", "sector_desc", "group_desc", "agg_level_desc",
         "commodity_desc", "short_desc", "year"]
      = guess_breadcrumb_order
        ["year", "short_desc", "commodity_desc", "agg_level_desc",
         "group_desc", "sector_desc", "source_desc"] :=
  ((breadcrumb_canonical_order
      ["source_desc", "sector_desc", "group_desc", "agg_level_desc",
       "commodity_desc", "short_desc", "year"]
      ["year", "short_desc", "commodity_desc", "agg_level_desc",
       "group_desc", "sector_desc", "source_desc"]).2.2 (by decide)).1

/-- C10: `fetch_for_crop_metric` is total only for the metric keys
`"yield"` and `"acres_planted"`; any other key makes the
`SHORT_DESC_TEMPLATES[metric_key]` lookup raise an uncaught `KeyError`
(modelled as `Except.error`) before any network traffic, instead of
returning a NotFound result. -/
theorem fetch_metric_key_error :
    ∀ (env : NetEnv) (crop : String) (year : Nat) (metricKey : String),
      metricKey ≠ "yield" → metricKey ≠ "acres_planted" →
      fetch_for_crop_metric env crop metricKey year
        = (Except.error FetchErr.keyError, []) := by
  intro env crop year mk h1 h2
  unfold fetch_for_crop_metric SHORT_DESC_TEMPLATES
  rw [if_neg h1, if_neg h2]

/-- Witness for `fetch_metric_key_error` at the metric key
`"production"`. -/
theorem fetch_metric_key_error_witness :
    fetch_for_crop_metric envAllOk "CORN" "production" 2020
      = (Except.error FetchErr.keyError, []) :=
  fetch_metric_key_error envAllOk "CORN" 2020 "production" (by decide) (by decide)

/-- C2 counterexample: with the cached file for the deterministically
resolved uuid `u0` already on disk, `fetch_for_crop_metric` still issues a
resolution POST — the claim that neither network call is issued on a cache
hit is false for the yield script, whose cache filename embeds the resolved
handle. -/
theorem cache_hit_counterexample :
    cacheEnvYield.fileExists (yieldOutPath "CORN" "yield" 2020 "u0") = true ∧
    Ev.uuidPost "CORN, GRAIN - YIELD, MEASURED IN BU / ACRE"
      ∈ (fetch_for_crop_metric cacheEnvYield "CORN" "yield" 2020).2 := by
  decide

/-- C2 (amended): `fetch_one` with its uuid-free cache path present returns
the cached path at once with an empty event trace (no resolution, no
retrieval); `fetch_for_crop_metric`, whose cache path embeds the resolved
handle, issues exactly the resolution POST for the first template (wrapped
in the usual sleep) and skips the retrieval GET, returning the cached
path. -/
theorem cache_hit_amended :
    (∀ (env : NetEnv) (crop metric : String) (year : Nat),
        env.fileExists (fetchOnePath crop metric year) = true →
        fetch_one env crop metric year
          = (Except.ok (some (fetchOnePath crop metric year)), []))
    ∧ (∀ (env : NetEnv) (crop metricKey : String) (year : Nat)
        (t0 : String) (rest : List String) (u : String),
        SHORT_DESC_TEMPLATES metricKey = some (t0 :: rest) →
        env.uuidResp (formatTemplate t0 crop) 1 = UuidOutcome.ok u →
        env.fileExists (yieldOutPath crop metricKey year u) = true →
        fetch_for_crop_metric env crop metricKey year
          = (Except.ok (some (yieldOutPath crop metricKey year u)),
             [Ev.uuidPost (formatTemplate t0 crop),
              Ev.sleepEv DELAY_BETWEEN_REQUESTS])) := by
  constructor
  · intro env crop metric year h
    simp [fetch_one, h]
  · intro env crop metricKey year t0 rest u ht hresp hex
    simp [fetch_for_crop_metric, ht, fetchYieldLoop, try_post_uuid,
      tryPostAux, hresp, hex]

/-- Witness for `cache_hit_amended` at the two concrete cache-holding
environments. -/
theorem cache_hit_amended_witness :
    fetch_one cacheEnvProd "CORN" "yield" 2020
        = (Except.ok (some (fetchOnePath "CORN" "yield" 2020)), [])
    ∧ fetch_for_crop_metric cacheEnvYield "CORN" "yield" 2020
        = (Except.ok (some (yieldOutPath "CORN" "yield" 2020 "u0")),
           [Ev.uuidPost (formatTemplate "{crop}, GRAIN - YIELD, MEASURED IN BU / ACRE" "CORN"),
            Ev.sleepEv DELAY_BETWEEN_REQUESTS]) :=
  ⟨cache_hit_amended.1 cacheEnvProd "CORN" "yield" 2020 (by decide),
   cache_hit_amended.2 cacheEnvYield "CORN" "yield" 2020 _ _ "u0" rfl
     (by decide) (by decide)⟩

/-- C3: in both scripts, when the first candidate short-description resolves
to a uuid and the unit then succeeds (cached file present, or the download
succeeds), every resolution POST in the whole trace carries the first
candidate's short description — no later candidate is ever submitted. -/
theorem resolver_short_circuit :
    (∀ (env : NetEnv) (crop metricKey : String) (year : Nat)
        (t0 : String) (rest : List String) (u : String),
        SHORT_DESC_TEMPLATES metricKey = some (t0 :: rest) →
        (try_post_uuid env (formatTemplate t0 crop)).1 = some u →
        (env.fileExists (yieldOutPath crop metricKey year u) = true ∨
          (download_csv_for_uuid env u (yieldOutPath crop metricKey year u)).1 = true) →
        ∀ s, Ev.uuidPost s ∈ (fetch_for_crop_metric env crop metricKey year).2 →
          s = formatTemplate t0 crop)
    ∧ (∀ (env : NetEnv) (crop metric : String) (year : Nat)
        (p0 : String) (rest : List String) (u : String),
        SHORT_DESC_PATTERNS metric = some (p0 :: rest) →
        (get_uuid env (formatTemplate p0 crop)).1 = some u →
        (download_csv env u (fetchOnePath crop metric year)).1 = true →
        ∀ s, Ev.uuidPost s ∈ (fetch_one env crop metric year).2 →
          s = formatTemplate p0 crop) := by
  constructor
  · intro env crop metricKey year t0 rest u ht hres hok s hmem
    simp only [fetch_for_crop_metric, ht, fetchYieldLoop] at hmem
    rcases htp : try_post_uuid env (formatTemplate t0 crop) with ⟨r1, evs1⟩
    rw [htp] at hres hmem
    simp only at hres
    subst hres
    simp only at hmem
    by_cases hex : env.fileExists (yieldOutPath crop metricKey year u)
    · rw [hex] at hmem
      simp at hmem
      have h5 := tryPostAux_uuidPost env (formatTemplate t0 crop) RETRY_DELAY
        [1, 2, 3] s
      rw [try_post_uuid] at htp
      rw [htp] at h5
      exact h5 hmem
    · rcases hok with hok | hok
      · exact absurd hok hex
      · rw [if_neg hex] at hmem
        rcases hdl : download_csv_for_uuid env u (yieldOutPath crop metricKey year u)
          with ⟨b, devs⟩
        rw [hdl] at hok hmem
        simp only at hok
        subst hok
        simp at hmem
        rcases hmem with hmem | hmem
        · have h5 := tryPostAux_uuidPost env (formatTemplate t0 crop) RETRY_DELAY
            [1, 2, 3] s
          rw [try_post_uuid] at htp
          rw [htp] at h5
          exact h5 hmem
        · have h5 := downloadAux_no_uuidPost env u
            (yieldOutPath crop metricKey year u) RETRY_DELAY [1, 2, 3] s
          rw [download_csv_for_uuid] at hdl
          rw [hdl] at h5
          exact absurd hmem h5
  · intro env crop metric year p0 rest u hp hres hok s hmem
    by_cases hex : env.fileExists (fetchOnePath crop metric year)
    · simp [fetch_one, hex] at hmem
    · simp only [fetch_one, hex, if_neg, Bool.false_eq_true, if_false, hp] at hmem
      simp only [fetchOneLoop] at hmem
      rcases htp : get_uuid env (formatTemplate p0 crop) with ⟨r1, evs1⟩
      rw [htp] at hres hmem
      simp only at hres
      subst hres
      simp only at hmem
      rcases hdl : download_csv env u (fetchOnePath crop metric year) with ⟨b, devs⟩
      rw [hdl] at hok hmem
      simp only at hok
      subst hok
      simp at hmem
      rcases hmem with hmem | hmem
      · have h5 := tryPostAux_uuidPost env (formatTemplate p0 crop) 1 [1, 2, 3] s
        rw [get_uuid] at htp
        rw [htp] at h5
        exact h5 hmem
      · have h5 := downloadAux_no_uuidPost env u (fetchOnePath crop metric year)
          1 [1, 2, 3] s
        rw [download_csv] at hdl
        rw [hdl] at h5
        exact absurd hmem h5

/-- Witness for `resolver_short_circuit`: applying it in the all-success
environment identifies the one submitted short description with the first
template instantiated at CORN. -/
theorem resolver_short_circuit_witness :
    "CORN, GRAIN - YIELD, MEASURED IN BU / ACRE"
      = formatTemplate "{crop}, GRAIN - YIELD, MEASURED IN BU / ACRE" "CORN" :=
  resolver_short_circuit.1 envAllOk "CORN" "yield" 2020 _ _ "u0" rfl (by decide)
    (Or.inr (by decide)) "CORN, GRAIN - YIELD, MEASURED IN BU / ACRE" (by decide)

theorem downloadAux_three (env : NetEnv) (uuid outPath : String) (d : ℚ) :
    downloadAux env uuid outPath d [1, 2, 3] =
      if env.dlResp uuid 1 then
        (true, [Ev.csvGet uuid, Ev.fileWrite outPath])
      else if env.dlResp uuid 2 then
        (true, [Ev.csvGet uuid, Ev.sleepEv d,
                Ev.csvGet uuid, Ev.fileWrite outPath])
      else if env.dlResp uuid 3 then
        (true, [Ev.csvGet uuid, Ev.sleepEv d, Ev.csvGet uuid, Ev.sleepEv d,
                Ev.csvGet uuid, Ev.fileWrite outPath])
      else
        (false, [Ev.csvGet uuid, Ev.sleepEv d, Ev.csvGet uuid, Ev.sleepEv d,
                 Ev.csvGet uuid, Ev.sleepEv d]) := by
  by_cases h1 : env.dlResp uuid 1 <;> by_cases h2 : env.dlResp uuid 2 <;>
    by_cases h3 : env.dlResp uuid 3 <;>
      simp [downloadAux, h1, h2, h3]

/-- C8: both download routines return success exactly when one of their
(at most three) attempts succeeds, write the response body to the
destination path exactly when they succeed — the write event always
directly follows the successful request — sleep the script's fixed backoff
between attempts, and report exhaustion as a boolean `false` (the model is
a total function: no exception escapes). -/
theorem download_retry_contract :
    ∀ (env : NetEnv) (uuid outPath : String),
      ((download_csv_for_uuid env uuid outPath).1
          = (env.dlResp uuid 1 || env.dlResp uuid 2 || env.dlResp uuid 3))
      ∧ (Ev.fileWrite outPath ∈ (download_csv_for_uuid env uuid outPath).2
          ↔ (download_csv_for_uuid env uuid outPath).1 = true)
      ∧ (∀ q : ℚ, Ev.sleepEv q ∈ (download_csv_for_uuid env uuid outPath).2 →
          q = RETRY_DELAY)
      ∧ (((download_csv_for_uuid env uuid outPath).2.filter isCsvGet).length ≤ 3)
      ∧ ((download_csv_for_uuid env uuid outPath).1 = true →
          ∃ pre, (download_csv_for_uuid env uuid outPath).2
            = pre ++ [Ev.csvGet uuid, Ev.fileWrite outPath])
      ∧ ((download_csv env uuid outPath).1
          = (env.dlResp uuid 1 || env.dlResp uuid 2 || env.dlResp uuid 3))
      ∧ (Ev.fileWrite outPath ∈ (download_csv env uuid outPath).2
          ↔ (download_csv env uuid outPath).1 = true)
      ∧ (∀ q : ℚ, Ev.sleepEv q ∈ (download_csv env uuid outPath).2 → q = 1)
      ∧ (((download_csv env uuid outPath).2.filter isCsvGet).length ≤ 3)
      ∧ ((download_csv env uuid outPath).1 = true →
          ∃ pre, (download_csv env uuid outPath).2
            = pre ++ [Ev.csvGet uuid, Ev.fileWrite outPath]) := by
  intro env uuid outPath
  rw [download_csv_for_uuid, download_csv, downloadAux_three, downloadAux_three]
  by_cases h1 : env.dlResp uuid 1 <;> by_cases h2 : env.dlResp uuid 2 <;>
    by_cases h3 : env.dlResp uuid 3 <;>
      refine ⟨?_, ?_, ?_, ?_, ?_, ?_, ?_, ?_, ?_, ?_⟩ <;>
        simp [h1, h2, h3, isCsvGet] <;>
          first
            | exact ⟨[], rfl⟩
            | exact ⟨[Ev.csvGet uuid, Ev.sleepEv RETRY_DELAY], rfl⟩
            | exact ⟨[Ev.csvGet uuid, Ev.sleepEv RETRY_DELAY,
                      Ev.csvGet uuid, Ev.sleepEv RETRY_DELAY], rfl⟩
            | exact ⟨[Ev.csvGet uuid, Ev.sleepEv 1], rfl⟩
            | exact ⟨[Ev.csvGet uuid, Ev.sleepEv 1,
                      Ev.csvGet uuid, Ev.sleepEv 1], rfl⟩

/-- Witness for `download_retry_contract`: its success-iff-some-attempt
conjunct at the all-success environment. -/
theorem download_retry_contract_witness :
    (download_csv_for_uuid envAllOk "u0" "out.csv").1
      = (envAllOk.dlResp "u0" 1 || envAllOk.dlResp "u0" 2 || envAllOk.dlResp "u0" 3) :=
  (download_retry_contract envAllOk "u0" "out.csv").1

/-- C1: for every key in the merged output and each metric column, the
output value equals the first non-null numeric value among the rows of the
concatenated input that share that key and carry that metric's
classification (its projection mask), taken in original input row order —
so a null and a non-null candidate yield the non-null one, and two
non-null candidates yield whichever row comes first. -/
theorem merged_first_nonnull :
    ∀ (files : List RawFile) (out : List MergedRow) (mr : MergedRow),
      merge_raw_files files = some out → mr ∈ out →
      mr.yieldBuPerAcre =
        (((flatRows files).filter
            (fun t => decide (keyOf t = some mr.key) && maskYield t)).filterMap
          (fun t => valueNumeric t.row)).head?
      ∧ mr.acresPlanted =
        (((flatRows files).filter
            (fun t => decide (keyOf t = some mr.key) && maskAcres t)).filterMap
          (fun t => valueNumeric t.row)).head? := by
  intro files out mr hm hmr
  simp only [merge_raw_files] at hm
  split at hm
  · simp at hm
  · split at hm
    · simp at hm
    · injection hm with hm
      subst hm
      simp only [mergeLoaded, List.mem_map] at hmr
      obtain ⟨k, hk, rfl⟩ := hmr
      dsimp only [flatRows]
      constructor
      · rw [show yieldProj
            = (fun t => if maskYield t then valueNumeric t.row else none) from rfl,
          firstSome_map_ite, filter_filter_and]
      · rw [show acresProj
            = (fun t => if maskAcres t then valueNumeric t.row else none) from rfl,
          firstSome_map_ite, filter_filter_and]

/-- Witness for `merged_first_nonnull` at the completed two-file
scenario. -/
theorem merged_first_nonnull_witness :
    scenarioMergedRow.yieldBuPerAcre =
      (((flatRows [scenarioFileA2, scenarioFileB2]).filter
          (fun t => decide (keyOf t = some scenarioMergedRow.key) && maskYield t)).filterMap
        (fun t => valueNumeric t.row)).head?
    ∧ scenarioMergedRow.acresPlanted =
      (((flatRows [scenarioFileA2, scenarioFileB2]).filter
          (fun t => decide (keyOf t = some scenarioMergedRow.key) && maskAcres t)).filterMap
        (fun t => valueNumeric t.row)).head? :=
  merged_first_nonnull [scenarioFileA2, scenarioFileB2] [scenarioMergedRow]
    scenarioMergedRow (by decide) (by decide)

/-- C4 counterexample: `c4Row` is keyable in the claim's sense (its crop is
determinable), yet the merged output of its file is empty — the row is
silently lost because its null-filled ANSI key columns make `groupby`
(default `dropna=True`) drop it. -/
theorem merge_key_totality_counterexample :
    (cropOf c4Row).isSome = true ∧ merge_raw_files [c4File] = some [] := by
  decide

/-- C4 (amended): the key tuples of the merged output are exactly the
distinct key tuples of the concatenated input rows that are keyable and
whose key columns (State, State ANSI, County, County ANSI, numeric Year)
are all non-null; rows with any null key column are silently dropped by the
grouping step. -/
theorem merge_key_set_amended :
    ∀ (files : List RawFile) (out : List MergedRow),
      merge_raw_files files = some out →
      ∀ k : Key, (∃ mr ∈ out, mr.key = k) ↔ ∃ t ∈ flatRows files, keyOf t = some k := by
  intro files out hm k
  simp only [merge_raw_files] at hm
  split at hm
  · simp at hm
  · split at hm
    · simp at hm
    · injection hm with hm
      subst hm
      simp only [flatRows]
      constructor
      · rintro ⟨mr, hmr, hkey⟩
        simp only [mergeLoaded, List.mem_map] at hmr
        obtain ⟨k2, hk2, rfl⟩ := hmr
        dsimp only at hkey
        subst hkey
        rw [List.mem_dedup, List.mem_filterMap] at hk2
        exact hk2
      · rintro ⟨t, ht, hkt⟩
        simp only [mergeLoaded, List.mem_map]
        refine ⟨_, ⟨k, ?_, rfl⟩, rfl⟩
        rw [List.mem_dedup, List.mem_filterMap]
        exact ⟨t, ht, hkt⟩

/-- Witness for `merge_key_set_amended`: at the completed scenario, the
scenario key is present in the output because a row with that key exists. -/
theorem merge_key_set_amended_witness :
    ∃ mr ∈ [scenarioMergedRow], mr.key = scenarioKey :=
  (merge_key_set_amended [scenarioFileA2, scenarioFileB2] [scenarioMergedRow]
      (by decide) scenarioKey).mpr (by decide)

/-- C5 counterexample: with the scenario rows exactly as stated (no ANSI
columns in either export, so both are null-filled), the merged output is
empty — it does not contain the promised row for (IA, Story, 2020,
CORN). -/
theorem merge_scenario_counterexample :
    merge_raw_files [scenarioFileA, scenarioFileB] = some [] := by
  decide

/-- C5 (amended): with each scenario row additionally carrying non-null
State ANSI 19 and County ANSI 169, the merged output is exactly one row
keyed (IA, 19, Story, 169, 2020, CORN) with Yield 185.3, Acres_Planted
1200 and SourceRowsCount 2. -/
theorem merge_scenario_amended :
    merge_raw_files [scenarioFileA2, scenarioFileB2] = some [scenarioMergedRow] := by
  decide

/-- C6 counterexample: in the mixed file the second row satisfies both
projection masks (file-level tag yield, row-level keywords acres planted),
so its single value 20 lands in both metric columns — of the two merged
rows, the second carries Yield 20 and Acres_Planted 20 from one
contributing row. -/
theorem projection_both_columns_counterexample :
    yieldProj { detected := detectFileMetric c6Loaded, row := c6Row2 } = some 20
    ∧ acresProj { detected := detectFileMetric c6Loaded, row := c6Row2 } = some 20
    ∧ merge_raw_files [c6File] =
        some [{ key := { state := "IA", stateAnsi := "19", county := "Polk",
                         countyAnsi := "153", year := 2020, crop := "CORN" },
                yieldBuPerAcre := some 10, acresPlanted := none,
                sourceRowsCount := 1 },
              { key := { state := "IA", stateAnsi := "19", county := "Story",
                         countyAnsi := "169", year := 2020, crop := "CORN" },
                yieldBuPerAcre := some 20, acresPlanted := some 20,
                sourceRowsCount := 1 }] := by
  decide

/-- C6 (amended): a row's value reaches the Yield column only when its
yield mask holds and the Acres column only when its acres mask holds;
whenever the two masks do not both hold the row contributes to at most one
column, but a row satisfying both masks (file-level tag and row-level
keywords disagreeing) contributes its value to both. -/
theorem projection_masks_amended :
    ∀ t : Tagged,
      (yieldProj t ≠ none → maskYield t = true)
      ∧ (acresProj t ≠ none → maskAcres t = true)
      ∧ ((maskYield t = false ∨ maskAcres t = false) →
          yieldProj t = none ∨ acresProj t = none) := by
  intro t
  unfold yieldProj acresProj
  by_cases hy : maskYield t <;> by_cases ha : maskAcres t <;> simp [hy, ha]

/-- Witness for `projection_masks_amended` at the mixed file's first row,
whose acres mask fails, forcing a null Acres contribution. -/
theorem projection_masks_amended_witness :
    yieldProj { detected := detectFileMetric c6Loaded, row := c6Row1 } = none
    ∨ acresProj { detected := detectFileMetric c6Loaded, row := c6Row1 } = none :=
  (projection_masks_amended
      { detected := detectFileMetric c6Loaded, row := c6Row1 }).2.2
    (Or.inr (by decide))
